import Mathlib

/-!
Verification development for the GameSense-AI replay-analysis repository.

The integration layer (`integrador.py`) and the setup script (`setup.py`) are
embedded directly from the source.  The replay decoder, telemetry normalizer
and analysis engine live in modules (`parser/rocket_league_parser.py`,
`modelo/rocket_league_analyzer.py`, `visualizacao/rocket_league_visualizer.py`)
that are not part of the available sources; where a claim depends on them they
are modelled from the specification, and each such definition is marked
`Modelled from the spec:`.
-/

namespace GameSense

/-! ## Embedding of `ReplayAnalyzerIntegrator.process_replay` (integrador.py)

`process_replay` is a control-flow pipeline over external calls (filesystem,
parser, analyzer, visualizer).  We embed it as a function of an environment
recording the outcome of each external call, and we return both the Python
return value (an abstracted result) and the trace of pipeline steps that were
executed, each tagged with whether it completed without raising. -/

/-- The observable steps of `process_replay`, in the order they appear in
`integrador.py` lines 70-171. -/
inductive Step where
  /-- line 71: `os.path.exists(replay_path)` check -/
  | checkExists
  /-- line 81: `os.makedirs(result_dir, exist_ok=True)` -/
  | mkResultDir
  /-- line 84: `self.visualizer.set_output_dir(result_dir)` -/
  | setOutputDir
  /-- line 90: `self.parser.parse()` (Etapa 1, decode) -/
  | parseStep
  /-- line 96: `self.parser.export_to_json(replay_data_path)` (decoded data) -/
  | exportReplayData
  /-- lines 99-104: dataframe extraction and CSV saves of decoded data -/
  | saveDecodedCsv
  /-- lines 114-116: `load_data`, `load_dataframes`, `analyze()` (Etapa 2) -/
  | analyzeStep
  /-- lines 119-131: read analysis results and write `analysis_results.json` -/
  | saveAnalysis
  /-- lines 137-144: the eight visualizer calls (Etapa 3) -/
  | visualizeStep
  /-- lines 147-171: compile the results dict and return it -/
  | compileResults
deriving DecidableEq, Repr

/-- Pipeline stage of a step, following the spec's
Decoder (1) - Analysis (2) - Export/Visualization (3) order; the initial
filesystem preparation (lines 70-84) is stage 0. -/
def Step.stage : Step → Nat
  | .checkExists => 0
  | .mkResultDir => 0
  | .setOutputDir => 0
  | .parseStep => 1
  | .exportReplayData => 1
  | .saveDecodedCsv => 1
  | .analyzeStep => 2
  | .saveAnalysis => 2
  | .visualizeStep => 3
  | .compileResults => 3

/-- Environment of one `process_replay` run: the outcome of each external
call it makes.  `fileExists` is the line-71 check; `parseOk` is the boolean
returned by `parser.parse()` on line 90; the three `...Ok` flags record
whether the corresponding external calls return normally (`false` models a
raised Python exception). -/
structure PEnv where
  fileExists : Bool
  parseOk : Bool
  exportOk : Bool
  analyzeOk : Bool
  visualizeOk : Bool
deriving DecidableEq, Repr

/-- Abstracted Python return behaviour of `process_replay`: it returns
`None`, returns the compiled results dict, or propagates an exception. -/
inductive Outcome where
  | retNone
  | retResults
  | raised
deriving DecidableEq, Repr

/-- Embedding of `ReplayAnalyzerIntegrator.process_replay`
(integrador.py lines 59-171).  Mirrors the source line by line: the
existence check returns `None` early; a failed `parse()` returns `None`
after the result directory was already created; any exception raised by a
later external call propagates (no try/except in the source).  The trace
records each step executed, paired with `true` iff it completed. -/
def process_replay (env : PEnv) : Outcome × List (Step × Bool) :=
  if !env.fileExists then
    (.retNone, [(.checkExists, true)])
  else
    let pre := [(Step.checkExists, true), (Step.mkResultDir, true),
                (Step.setOutputDir, true)]
    if !env.parseOk then
      (.retNone, pre ++ [(.parseStep, false)])
    else if !env.exportOk then
      (.raised, pre ++ [(.parseStep, true), (.exportReplayData, false)])
    else
      let decoded := pre ++ [(Step.parseStep, true), (Step.exportReplayData, true),
                             (Step.saveDecodedCsv, true)]
      if !env.analyzeOk then
        (.raised, decoded ++ [(.analyzeStep, false)])
      else if !env.visualizeOk then
        (.raised, decoded ++ [(.analyzeStep, true), (.saveAnalysis, true),
                              (.visualizeStep, false)])
      else
        (.retResults, decoded ++ [(.analyzeStep, true), (.saveAnalysis, true),
                                  (.visualizeStep, true), (.compileResults, true)])

/-- The steps executed in a run, without their success flags. -/
def runSteps (env : PEnv) : List Step :=
  (process_replay env).2.map Prod.fst

/-! ## Embedding of `ReplayAnalyzerIntegrator.get_result_summary` (integrador.py)

The function reads two JSON files from the result directory and assembles a
summary dictionary.  We model parsed JSON values, and the filesystem as seen
for one `result_id`: whether the directory exists and the parsed object
content of each of the two files (`none` = file missing).  The files are
written by `process_replay` as JSON objects, so file contents are modelled
as parsed objects (association lists with unique keys). -/

/-- A parsed JSON value. -/
inductive JVal where
  | null
  | bool (b : Bool)
  | num (n : ℤ)
  | str (s : String)
  | arr (xs : List JVal)
  | obj (fields : List (String × JVal))

/-- Python `dict.get(key, default)` on a parsed JSON object. -/
def jget (fields : List (String × JVal)) (key : String) (dflt : JVal) : JVal :=
  match fields.find? (fun p => p.1 == key) with
  | some p => p.2
  | none => dflt

/-- `os.path.join` for the relative path components used in `integrador.py`. -/
def pathJoin (a b : String) : String := a ++ "/" ++ b

/-- Filesystem state relevant to one `result_id`: line-198 directory
existence, and the parsed contents of `analysis_results.json` (line 203) and
`replay_data.json` (line 213), `none` when the file is missing. -/
structure ResultStore where
  dirExists : Bool
  analysisJson : Option (List (String × JVal))
  replayJson : Option (List (String × JVal))

/-- The summary dictionary built on integrador.py lines 223-241. -/
structure Summary where
  id : String
  metadata : JVal
  players : JVal
  events : JVal
  overall_score : JVal
  findings : JVal
  recommendations : JVal
  visualizations : List (String × String)

/-- The eight visualization entries (integrador.py lines 231-240). -/
def visualizationPaths (result_dir : String) : List (String × String) :=
  [("heatmap", pathJoin result_dir "heatmap.png"),
   ("ball_trajectory", pathJoin result_dir "ball_trajectory.png"),
   ("boost_usage", pathJoin result_dir "boost_usage.png"),
   ("speed", pathJoin result_dir "speed.png"),
   ("distance_to_ball", pathJoin result_dir "distance_to_ball.png"),
   ("team_spread", pathJoin result_dir "team_spread.png"),
   ("analysis_radar", pathJoin result_dir "analysis_radar.png"),
   ("event_timeline", pathJoin result_dir "event_timeline.png")]

/-- Embedding of `ReplayAnalyzerIntegrator.get_result_summary`
(integrador.py lines 186-243): return `None` when the result directory or
either JSON file is missing; otherwise assemble the summary from the two
parsed files, with `dict.get` defaults `{}`/`[]` exactly as in the source. -/
def get_result_summary (results_dir result_id : String) (st : ResultStore) :
    Option Summary :=
  if !st.dirExists then
    none
  else
    match st.analysisJson with
    | none => none
    | some analysis_data =>
      match st.replayJson with
      | none => none
      | some replay_data =>
        let result_dir := pathJoin results_dir result_id
        some
          { id := result_id
            metadata := jget replay_data "metadata" (.obj [])
            players := jget replay_data "players" (.arr [])
            events := jget replay_data "events" (.arr [])
            overall_score := jget analysis_data "overall_score" (.obj [])
            findings := jget analysis_data "findings" (.arr [])
            recommendations := jget analysis_data "recommendations" (.obj [])
            visualizations := visualizationPaths result_dir }

/-! ## Spec-modelled core: decoder, normalizer, analysis engine

The repository modules `parser/rocket_league_parser.py`,
`modelo/rocket_league_analyzer.py` and `visualizacao/rocket_league_visualizer.py`
are imported by `integrador.py` but are not among the available sources.  The
definitions below are modelled from the specification (§3, §4.1-§4.3, §7).
Numeric quantities (timestamps, positions, velocities, scores) are modelled
as fixed-point integers (ℤ); linear interpolation and averaging use integer
division. -/

/-- Modelled from the spec: §3 FrameSample — timestamped snapshot of one
entity's physical state: 3D position, 3D velocity, and the entity-specific
scalar (boost), in fixed-point integer units. -/
structure FrameSample where
  t : ℤ
  px : ℤ
  py : ℤ
  pz : ℤ
  vx : ℤ
  vy : ℤ
  vz : ℤ
  boost : ℤ
deriving DecidableEq, Repr

/-- Modelled from the spec: §3 PlayerRecord — stable identifier, display
name, team assignment. -/
structure PlayerRecord where
  pid : Nat
  name : String
  team : Nat
deriving DecidableEq, Repr

/-- Modelled from the spec: §3 ReplayMetadata — map name, match type,
duration (seconds). -/
structure ReplayMetadata where
  mapName : String
  matchType : String
  duration : ℤ
deriving DecidableEq, Repr

/-- Modelled from the spec: §3 GameEvent — discrete occurrence with
timestamp, type tag, actor id and optional target id. -/
structure GameEvent where
  t : ℤ
  etype : String
  actor : Nat
  target : Option Nat
deriving DecidableEq, Repr

/-- Modelled from the spec: §4.1 — a frame-section record tagged with an
entity identifier. -/
structure TaggedRecord where
  tag : Nat
  sample : FrameSample
deriving DecidableEq, Repr

/-- Modelled from the spec: §6 input layout, already split into its container
sections: version header, metadata block, player roster, frame stream and
event stream. -/
structure RawReplay where
  version : Nat
  metadata : ReplayMetadata
  players : List PlayerRecord
  frames : List TaggedRecord
  events : List GameEvent
deriving DecidableEq, Repr

/-- Modelled from the spec: §4.1/§7 fatal decode errors. -/
inductive DecodeError where
  | unsupportedFormat
  | truncated
  | checksumMismatch
  | duplicatePlayer
deriving DecidableEq, Repr

/-- Modelled from the spec: §4.1 — a successful decode: the decoded data
plus the non-fatal diagnostics counters (dropped frame records with unknown
entity tags, dropped events referencing unknown actors). -/
structure DecodedReplay where
  metadata : ReplayMetadata
  players : List PlayerRecord
  frames : List TaggedRecord
  droppedFrames : Nat
  events : List GameEvent
  droppedEvents : Nat
deriving DecidableEq, Repr

/-- Modelled from the spec: the entity tag of the ball/objective. -/
def ballTag : Nat := 0

/-- Modelled from the spec: §6 — the supported format-version range
(a fixed policy constant of the versioned schema). -/
def supportedVersion (v : Nat) : Bool := 1 ≤ v && v ≤ 2

/-- Modelled from the spec: the known entity tags of a raw replay — the
ball plus one tag per rostered player. -/
def knownTags (raw : RawReplay) : List Nat :=
  ballTag :: raw.players.map (·.pid)

/-- Modelled from the spec: §4.1 `decode(raw) -> Result<DecodedReplay,
DecodeError>`.  Unsupported versions fail with `unsupportedFormat`;
duplicate player identifiers fail with `duplicatePlayer`; frame records
with unknown entity tags are skipped and counted (non-fatal); events
referencing an unknown actor are dropped and counted (non-fatal). -/
def decode (raw : RawReplay) : Except DecodeError DecodedReplay :=
  if supportedVersion raw.version then
    if (raw.players.map (·.pid)).Nodup then
      let known := knownTags raw
      let pids := raw.players.map (·.pid)
      Except.ok
        { metadata := raw.metadata
          players := raw.players
          frames := raw.frames.filter (fun r => known.contains r.tag)
          droppedFrames := raw.frames.countP (fun r => !known.contains r.tag)
          events := raw.events.filter (fun e => pids.contains e.actor)
          droppedEvents := raw.events.countP (fun e => !pids.contains e.actor) }
    else
      Except.error .duplicatePlayer
  else
    Except.error .unsupportedFormat

/-- Modelled from the spec: §4.2 — stable insertion of a sample into a
list sorted by timestamp; an equal-timestamp sample goes after the existing
ones, so ties keep original record order. -/
def insertSample : List FrameSample → FrameSample → List FrameSample
  | [], s => [s]
  | x :: xs, s => if x.t ≤ s.t then x :: insertSample xs s else s :: x :: xs

/-- Modelled from the spec: §4.2 — stable sort of an entity's samples by
timestamp. -/
def sortByTime (l : List FrameSample) : List FrameSample :=
  l.foldl insertSample []

/-- Modelled from the spec: §4.2 — linear interpolation of one scalar
between `(t1, v1)` and `(t2, v2)` at time `t`, in integer arithmetic. -/
def interpScalar (t1 v1 t2 v2 t : ℤ) : ℤ :=
  if t2 = t1 then v1 else v1 + (v2 - v1) * (t - t1) / (t2 - t1)

/-- Modelled from the spec: §4.2 — the interpolated sample between two real
samples at time `t`; its timestamp is exactly `t`. -/
def interpBetween (s1 s2 : FrameSample) (t : ℤ) : FrameSample :=
  { t := t
    px := interpScalar s1.t s1.px s2.t s2.px t
    py := interpScalar s1.t s1.py s2.t s2.py t
    pz := interpScalar s1.t s1.pz s2.t s2.pz t
    vx := interpScalar s1.t s1.vx s2.t s2.vx t
    vy := interpScalar s1.t s1.vy s2.t s2.vy t
    vz := interpScalar s1.t s1.vz s2.t s2.vz t
    boost := interpScalar s1.t s1.boost s2.t s2.boost t }

/-- Modelled from the spec: §4.2 — evaluate the sorted sample list at time
`t`, using the two nearest bracketing real samples (the last pair once `t`
passes every sample). -/
def interpAt : List FrameSample → ℤ → FrameSample
  | [], t => { t := t, px := 0, py := 0, pz := 0, vx := 0, vy := 0, vz := 0, boost := 0 }
  | [s], t => interpBetween s s t
  | s1 :: s2 :: rest, t =>
    if t ≤ s2.t then interpBetween s1 s2 t else interpAt (s2 :: rest) t

/-- Modelled from the spec: §4.2 — resample a sorted sample list at the
canonical tick period `dt`, from the first real sample to the last
(no extrapolation); fewer than two samples produce an empty series.
Gap flagging is a diagnostics-only concern of the spec and is not modelled
(it does not change the produced timestamps). -/
def resampleSorted (dt : ℤ) : List FrameSample → List FrameSample
  | [] => []
  | [_] => []
  | s0 :: s1 :: rest =>
    let t0 := s0.t
    let tN := ((s0 :: s1 :: rest).getLastD s0).t
    let n := ((tN - t0) / dt).toNat
    (List.range (n + 1)).map (fun k : ℕ => interpAt (s0 :: s1 :: rest) (t0 + (k : ℤ) * dt))

/-- Modelled from the spec: §4.2 `normalize` for one entity — stable sort
by timestamp, then resampling at the canonical tick period. -/
def resample (dt : ℤ) (samples : List FrameSample) : List FrameSample :=
  resampleSorted dt (sortByTime samples)

/-- Modelled from the spec: §3 NormalizedTimeSeries for a whole replay —
one normalized series per player, plus the ball series. -/
structure NormalizedReplay where
  playersSeries : List (Nat × List FrameSample)
  ballSeries : List FrameSample
deriving DecidableEq, Repr

/-- Modelled from the spec: the raw samples of one entity, in decoded
record order. -/
def samplesFor (tag : Nat) (frames : List TaggedRecord) : List FrameSample :=
  (frames.filter (fun r => r.tag == tag)).map (·.sample)

/-- Modelled from the spec: §4.2 — normalize every entity of a decoded
replay at the canonical tick period `dt`. -/
def normalizeReplay (dt : ℤ) (d : DecodedReplay) : NormalizedReplay :=
  { playersSeries := d.players.map (fun p => (p.pid, resample dt (samplesFor p.pid d.frames)))
    ballSeries := resample dt (samplesFor ballTag d.frames) }

/-- Modelled from the spec: §4.3 — the four per-player category scores;
`none` is the "not applicable" sentinel for categories computed from
insufficient data. -/
structure PlayerScores where
  positioning : Option ℤ
  resource : Option ℤ
  mechanical : Option ℤ
  eventContribution : Option ℤ
deriving DecidableEq, Repr

/-- Modelled from the spec: §4.3 AnalysisResult — per-player category score
bundles, the overall score, findings, and the finding-to-advice mapping. -/
structure AnalysisResult where
  perPlayer : List (Nat × PlayerScores)
  overall : ℤ
  findings : List String
  recommendations : List (String × String)
deriving DecidableEq, Repr

/-- Modelled from the spec: §4.3 — clamp a raw metric onto the fixed 0-100
scale. -/
def clamp (x : ℤ) : ℤ := max 0 (min 100 x)

/-- Modelled from the spec: §4.3 — integer average of a metric list,
`0` on the empty list (callers guard emptiness via the sentinel). -/
def avg (xs : List ℤ) : ℤ :=
  if xs.length = 0 then 0 else xs.sum / (xs.length : ℤ)

/-- L1 distance of a sample's position from the objective at the origin. -/
def posL1 (s : FrameSample) : ℤ := |s.px| + |s.py| + |s.pz|

/-- L1 magnitude of a sample's velocity. -/
def speedL1 (s : FrameSample) : ℤ := |s.vx| + |s.vy| + |s.vz|

/-- Modelled from the spec: §4.3 fixed policy constants — the maximum
speed used for linear scaling, the field distance scale, the per-event
contribution weight, and the scoring event types. -/
def maxSpeed : ℤ := 2300

/-- Field distance divisor of the positioning metric (policy constant). -/
def fieldScale : ℤ := 100

/-- Per scoring event weight of the contribution metric (policy constant). -/
def eventWeight : ℤ := 25

/-- The event types attributed to a player as contributions (§4.3). -/
def scoringEventTypes : List String := ["goal", "save", "demolition"]

/-- Modelled from the spec: §4.3/§4.2 — a category score: the "not
applicable" sentinel (`none`) when the entity's normalized series is empty
(insufficient data), else the raw metric clamped onto the 0-100 scale. -/
def mkScore (series : List FrameSample) (raw : ℤ) : Option ℤ :=
  if series.isEmpty then none else some (clamp raw)

/-- Modelled from the spec: §4.3 — number of scoring events attributed to
player `pid` via the event payload's actor id. -/
def contributionCount (events : List GameEvent) (pid : Nat) : Nat :=
  events.countP (fun e => e.actor == pid && scoringEventTypes.contains e.etype)

/-- Modelled from the spec: §4.3 — the four category scores of one player,
each a deterministic clamped linear scaling of the player's normalized
series (positioning: average distance to the objective; resource: average
boost; mechanical: average speed; contribution: attributed events). -/
def playerScores (series : List FrameSample) (events : List GameEvent)
    (pid : Nat) : PlayerScores :=
  { positioning := mkScore series (100 - avg (series.map posL1) / fieldScale)
    resource := mkScore series (avg (series.map (·.boost)))
    mechanical := mkScore series (avg (series.map speedL1) * 100 / maxSpeed)
    eventContribution := mkScore series (eventWeight * (contributionCount events pid : ℤ)) }

/-- The applicable (non-sentinel) scores of one player's bundle. -/
def scoresList (ps : PlayerScores) : List ℤ :=
  [ps.positioning, ps.resource, ps.mechanical, ps.eventContribution].filterMap id

/-- All applicable category scores across players. -/
def applicableScores (per : List (Nat × PlayerScores)) : List ℤ :=
  per.flatMap (fun p => scoresList p.2)

/-- Modelled from the spec: §4.3 — the overall score: fixed equal-weight
combination (average) of the applicable category scores; entities with the
"not applicable" sentinel are excluded rather than counted as zero. -/
def overallScore (per : List (Nat × PlayerScores)) : ℤ :=
  avg (applicableScores per)

/-- Modelled from the spec: §4.3 — the finding threshold (policy constant). -/
def findingThreshold : ℤ := 40

/-- Modelled from the spec: §4.3 — threshold findings of one player, in the
fixed category order positioning, resource, mechanical, contribution. -/
def playerFindings (pid : Nat) (ps : PlayerScores) : List String :=
  (match ps.positioning with
   | some q => if q < findingThreshold then ["player " ++ toString pid ++ ": weak positioning"] else []
   | none => []) ++
  (match ps.resource with
   | some q => if q < findingThreshold then ["player " ++ toString pid ++ ": low boost efficiency"] else []
   | none => []) ++
  (match ps.mechanical with
   | some q => if q < findingThreshold then ["player " ++ toString pid ++ ": slow movement"] else []
   | none => []) ++
  (match ps.eventContribution with
   | some q => if q < findingThreshold then ["player " ++ toString pid ++ ": low event contribution"] else []
   | none => [])

/-- Modelled from the spec: §4.3 — findings over all players in fixed
roster-then-category order. -/
def findingsOf (per : List (Nat × PlayerScores)) : List String :=
  per.flatMap (fun p => playerFindings p.1 p.2)

/-- Modelled from the spec: §4.3 — recommendations are a fixed lookup from
finding to advice text. -/
def adviceFor (finding : String) : String :=
  "work on: " ++ finding

/-- Modelled from the spec: §4.3 `analyze(series, events, metadata) ->
AnalysisResult` — a pure, deterministic function of its inputs. -/
def analyze (norm : NormalizedReplay) (events : List GameEvent)
    (_meta : ReplayMetadata) : AnalysisResult :=
  let per := norm.playersSeries.map (fun p => (p.1, playerScores p.2 events p.1))
  { perPlayer := per
    overall := overallScore per
    findings := findingsOf per
    recommendations := (findingsOf per).map (fun f => (f, adviceFor f)) }

/-- Ambient state an impure implementation could observe (wall-clock time,
an RNG seed).  The spec forbids any dependence on it. -/
structure World where
  timeOfDay : Nat
  randomSeed : Nat
deriving DecidableEq, Repr

/-- Modelled from the spec: §8 idempotence — the analysis engine as invoked
in some ambient world; per §4.3 it makes no external calls and uses no
randomness, so the world is not consulted. -/
def analyzeInWorld (_w : World) (norm : NormalizedReplay)
    (events : List GameEvent) (meta : ReplayMetadata) : AnalysisResult :=
  analyze norm events meta

/-- Modelled from the spec: §2 control flow — the full core pipeline:
decode, then normalize, then analyze; a fatal decode error short-circuits
before the normalizer and analysis stages. -/
def corePipeline (dt : ℤ) (raw : RawReplay) : Except DecodeError AnalysisResult :=
  match decode raw with
  | .error e => .error e
  | .ok d => .ok (analyze (normalizeReplay dt d) d.events d.metadata)

/-! ## Wrapper scripts written by `create_wrapper_scripts` (setup.py)

For the refinement claim, both the text that `setup.py` writes for each
wrapper script and the checked-in file contents are transcribed here
verbatim (braces and apostrophes appear as escape sequences). -/

/-- The exact text written to `analisar_replay.py` by `create_wrapper_scripts` (setup.py lines 136-160). -/
def analisarReplayGenerated : String :=
  "#!/usr/bin/env python3\nimport os\nimport sys\nimport argparse\n\ndef main():\n    parser = argparse.ArgumentParser(description=\x27Analisador de Replays\x27)\n    parser.add_argument(\x27--arquivo\x27, required=True, help=\x27Caminho para o arquivo de replay\x27)\n    parser.add_argument(\x27--jogo\x27, default=\x27rocket_league\x27, choices=[\x27rocket_league\x27, \x27rainbow_six\x27], \n                        help=\x27Tipo de jogo (rocket_league ou rainbow_six)\x27)\n    parser.add_argument(\x27--saida\x27, default=\x27data/results\x27, help=\x27Diretório para salvar resultados\x27)\n    args = parser.parse_args()\n    \n    # Ativar ambiente virtual\n    if sys.platform == \x27win32\x27:\n        activate_script = os.path.join(\x27venv\x27, \x27Scripts\x27, \x27activate\x27)\n        os.system(f\x27call \x7bactivate_script\x7d && python integrador.py --replay \x7bargs.arquivo\x7d --game \x7bargs.jogo\x7d --output \x7bargs.saida\x7d\x27)\n    else:\n        activate_script = os.path.join(\x27venv\x27, \x27bin\x27, \x27activate\x27)\n        os.system(f\x27source \x7bactivate_script\x7d && python integrador.py --replay \x7bargs.arquivo\x7d --game \x7bargs.jogo\x7d --output \x7bargs.saida\x7d\x27)\n\nif __name__ == \x27__main__\x27:\n    main()\n"

/-- The checked-in contents of `analisar_replay.py`. -/
def analisarReplayCheckedIn : String :=
  "#!/usr/bin/env python3\nimport os\nimport sys\nimport argparse\n\ndef main():\n    parser = argparse.ArgumentParser(description=\x27Analisador de Replays\x27)\n    parser.add_argument(\x27--arquivo\x27, required=True, help=\x27Caminho para o arquivo de replay\x27)\n    parser.add_argument(\x27--jogo\x27, default=\x27rocket_league\x27, choices=[\x27rocket_league\x27, \x27rainbow_six\x27], \n                        help=\x27Tipo de jogo (rocket_league ou rainbow_six)\x27)\n    parser.add_argument(\x27--saida\x27, default=\x27data/results\x27, help=\x27Diretório para salvar resultados\x27)\n    args = parser.parse_args()\n    \n    # Ativar ambiente virtual\n    if sys.platform == \x27win32\x27:\n        activate_script = os.path.join(\x27venv\x27, \x27Scripts\x27, \x27activate\x27)\n        os.system(f\x27call \x7bactivate_script\x7d && python integrador.py --replay \x7bargs.arquivo\x7d --game \x7bargs.jogo\x7d --output \x7bargs.saida\x7d\x27)\n    else:\n        activate_script = os.path.join(\x27venv\x27, \x27bin\x27, \x27activate\x27)\n        os.system(f\x27source \x7bactivate_script\x7d && python integrador.py --replay \x7bargs.arquivo\x7d --game \x7bargs.jogo\x7d --output \x7bargs.saida\x7d\x27)\n\nif __name__ == \x27__main__\x27:\n    main()\n\n"

/-- The exact text written to `analisar_video.py` by `create_wrapper_scripts` (setup.py lines 163-187). -/
def analisarVideoGenerated : String :=
  "#!/usr/bin/env python3\nimport os\nimport sys\nimport argparse\n\ndef main():\n    parser = argparse.ArgumentParser(description=\x27Analisador de Vídeos\x27)\n    parser.add_argument(\x27--arquivo\x27, required=True, help=\x27Caminho para o arquivo de vídeo\x27)\n    parser.add_argument(\x27--jogo\x27, default=\x27rocket_league\x27, choices=[\x27rocket_league\x27, \x27rainbow_six\x27], \n                        help=\x27Tipo de jogo (rocket_league ou rainbow_six)\x27)\n    parser.add_argument(\x27--saida\x27, default=\x27data/results\x27, help=\x27Diretório para salvar resultados\x27)\n    args = parser.parse_args()\n    \n    # Ativar ambiente virtual\n    if sys.platform == \x27win32\x27:\n        activate_script = os.path.join(\x27venv\x27, \x27Scripts\x27, \x27activate\x27)\n        os.system(f\x27call \x7bactivate_script\x7d && python video_analysis/gameplay_video_processor.py --video \x7bargs.arquivo\x7d --game \x7bargs.jogo\x7d --output \x7bargs.saida\x7d\x27)\n    else:\n        activate_script = os.path.join(\x27venv\x27, \x27bin\x27, \x27activate\x27)\n        os.system(f\x27source \x7bactivate_script\x7d && python video_analysis/gameplay_video_processor.py --video \x7bargs.arquivo\x7d --game \x7bargs.jogo\x7d --output \x7bargs.saida\x7d\x27)\n\nif __name__ == \x27__main__\x27:\n    main()\n"

/-- The checked-in contents of `analisar_video.py`. -/
def analisarVideoCheckedIn : String :=
  "#!/usr/bin/env python3\n# -*- coding: utf-8 -*-\nimport os\nimport sys\nimport argparse\n\ndef main():\n    parser = argparse.ArgumentParser(description=\x27Analisador de Vídeos\x27)\n    parser.add_argument(\x27--arquivo\x27, required=True, help=\x27Caminho para o arquivo de vídeo\x27)\n    parser.add_argument(\x27--jogo\x27, default=\x27rocket_league\x27, choices=[\x27rocket_league\x27, \x27rainbow_six\x27], \n                        help=\x27Tipo de jogo (rocket_league ou rainbow_six)\x27)\n    parser.add_argument(\x27--saida\x27, default=\x27data/results\x27, help=\x27Diretório para salvar resultados\x27)\n    args = parser.parse_args()\n    \n    print(f\"Iniciando análise do vídeo: \x7bargs.arquivo\x7d\")\n    print(f\"Tipo de jogo: \x7bargs.jogo\x7d\")\n    print(f\"Diretório de saída dos resultados: \x7bargs.saida\x7d\")\n\n    # Identifica o executável do Python no ambiente virtual\n    if sys.platform == \x27win32\x27:\n        python_exec = os.path.join(\x27venv\x27, \x27Scripts\x27, \x27python.exe\x27)\n    else:\n        python_exec = os.path.join(\x27venv\x27, \x27bin\x27, \x27python\x27)\n\n    if not os.path.isfile(python_exec):\n        print(f\"Erro: Não foi encontrado o Python do ambiente virtual em: \x7bpython_exec\x7d\")\n        print(\"Certifique-se de que o ambiente virtual foi criado (venv) e instalado corretamente.\")\n        sys.exit(1)\n\n    cmd = f\x27\"\x7bpython_exec\x7d\" video_analysis/gameplay_video_processor.py --video \"\x7bargs.arquivo\x7d\" --game \"\x7bargs.jogo\x7d\" --output \"\x7bargs.saida\x7d\"\x27\n    print(f\"Executando comando: \x7bcmd\x7d\")\n    exit_code = os.system(cmd)\n    \n    if exit_code == 0:\n        print(\"Processamento concluído com sucesso!\")\n    else:\n        print(f\"Ocorreu um erro ao processar o vídeo. Código de saída: \x7bexit_code\x7d\")\n\nif __name__ == \x27__main__\x27:\n    main()\n"

/-- The exact text written to `iniciar_interface.py` by `create_wrapper_scripts` (setup.py lines 190-206). -/
def iniciarInterfaceGenerated : String :=
  "#!/usr/bin/env python3\nimport os\nimport sys\n\ndef main():\n    # Ativar ambiente virtual\n    if sys.platform == \x27win32\x27:\n        activate_script = os.path.join(\x27venv\x27, \x27Scripts\x27, \x27activate\x27)\n        os.system(f\x27call \x7bactivate_script\x7d && python interface/app.py\x27)\n    else:\n        activate_script = os.path.join(\x27venv\x27, \x27bin\x27, \x27activate\x27)\n        os.system(f\x27source \x7bactivate_script\x7d && python interface/app.py\x27)\n\nif __name__ == \x27__main__\x27:\n    main()\n"

/-- The checked-in contents of `iniciar_interface.py`. -/
def iniciarInterfaceCheckedIn : String :=
  "#!/usr/bin/env python3\nimport os\nimport sys\n\ndef main():\n    # Ativar ambiente virtual\n    if sys.platform == \x27win32\x27:\n        activate_script = os.path.join(\x27venv\x27, \x27Scripts\x27, \x27activate\x27)\n        os.system(f\x27call \x7bactivate_script\x7d && python interface/app.py\x27)\n    else:\n        activate_script = os.path.join(\x27venv\x27, \x27bin\x27, \x27activate\x27)\n        os.system(f\x27source \x7bactivate_script\x7d && python interface/app.py\x27)\n\nif __name__ == \x27__main__\x27:\n    main()\n\n"

/-! ## Helper lemmas -/

/-- The interpolated sample at time `t` carries timestamp `t`. -/
theorem interpAt_t (l : List FrameSample) (t : ℤ) : (interpAt l t).t = t := by
  induction l with
  | nil => rfl
  | cons s rest ih =>
    cases rest with
    | nil => rfl
    | cons s2 r2 =>
      simp only [interpAt]
      split
      · rfl
      · exact ih

/-- Resampling any sorted list yields strictly increasing timestamps when
the tick period is positive. -/
theorem resampleSorted_pairwise (dt : ℤ) (hdt : 0 < dt) (l : List FrameSample) :
    (resampleSorted dt l).Pairwise (fun a b => a.t < b.t) := by
  match l with
  | [] => simp [resampleSorted]
  | [s] => simp [resampleSorted]
  | s0 :: s1 :: rest =>
    simp only [resampleSorted]
    rw [List.pairwise_map]
    refine (List.pairwise_lt_range _).imp_of_mem ?_
    intro a b _ _ hab
    rw [interpAt_t, interpAt_t]
    have hcast : (a : ℤ) < (b : ℤ) := by exact_mod_cast hab
    have := mul_lt_mul_of_pos_right hcast hdt
    linarith

/-- Normalizing an entity with strictly fewer than two raw samples yields
the empty series. -/
theorem resample_short (dt : ℤ) (samples : List FrameSample)
    (h : samples.length < 2) : resample dt samples = [] := by
  match samples with
  | [] => rfl
  | [s] => rfl
  | a :: b :: rest => simp at h; omega

/-- The clamped scale is within the fixed 0-100 bounds. -/
theorem clamp_mem (x : ℤ) : 0 ≤ clamp x ∧ clamp x ≤ 100 :=
  ⟨le_max_left _ _, max_le (by norm_num) (min_le_left _ _)⟩

/-- An applicable category score is a clamped value, hence within bounds. -/
theorem mkScore_eq_some {series : List FrameSample} {raw q : ℤ}
    (h : mkScore series raw = some q) : 0 ≤ q ∧ q ≤ 100 := by
  unfold mkScore at h
  split at h
  · exact absurd h (by simp)
  · obtain rfl : clamp raw = q := by simpa using h
    exact clamp_mem raw

/-- Every applicable score of one player's bundle is within bounds. -/
theorem scoresList_playerScores_mem (series : List FrameSample)
    (events : List GameEvent) (pid : Nat) :
    ∀ q ∈ scoresList (playerScores series events pid), 0 ≤ q ∧ q ≤ 100 := by
  intro q hq
  simp only [scoresList, playerScores, List.mem_filterMap, List.mem_cons,
    List.not_mem_nil, or_false, id_eq] at hq
  obtain ⟨o, hmem, rfl⟩ := hq
  rcases hmem with h | h | h | h <;> exact mkScore_eq_some h.symm

/-- The integer average of a list of values within `[0, 100]` is within
`[0, 100]`. -/
theorem avg_range (xs : List ℤ) (h : ∀ x ∈ xs, 0 ≤ x ∧ x ≤ 100) :
    0 ≤ avg xs ∧ avg xs ≤ 100 := by
  unfold avg
  split
  · exact ⟨le_refl 0, by norm_num⟩
  · rename_i hne
    have hlen : 0 < (xs.length : ℤ) := by
      have : 0 < xs.length := Nat.pos_of_ne_zero hne
      exact_mod_cast this
    constructor
    · exact Int.ediv_nonneg (List.sum_nonneg fun x hx => (h x hx).1) (le_of_lt hlen)
    · have hsum : xs.sum ≤ (xs.length : ℤ) * 100 := by
        have := List.sum_le_card_nsmul xs 100 fun x hx => (h x hx).2
        simpa [nsmul_eq_mul] using this
      calc xs.sum / (xs.length : ℤ) ≤ ((xs.length : ℤ) * 100) / (xs.length : ℤ) :=
            Int.ediv_le_ediv hlen hsum
        _ = 100 := Int.mul_ediv_cancel_left 100 (ne_of_gt hlen)

/-- Every applicable score across the players of an analysis run is within
bounds. -/
theorem applicableScores_mem (norm : NormalizedReplay) (events : List GameEvent) :
    ∀ q ∈ applicableScores
        (norm.playersSeries.map (fun p => (p.1, playerScores p.2 events p.1))),
      0 ≤ q ∧ q ≤ 100 := by
  intro q hq
  simp only [applicableScores, List.mem_flatMap, List.mem_map] at hq
  obtain ⟨pr, ⟨p, _, rfl⟩, hmem⟩ := hq
  exact scoresList_playerScores_mem p.2 events p.1 q hmem

/-- The overall score of any analysis run lies in `[0, 100]`: the
"not applicable" sentinel is excluded from the aggregate instead of being
turned into a number, so no undefined value reaches the overall score. -/
theorem analyze_overall_range (norm : NormalizedReplay)
    (events : List GameEvent) (meta : ReplayMetadata) :
    0 ≤ (analyze norm events meta).overall ∧ (analyze norm events meta).overall ≤ 100 := by
  unfold analyze overallScore
  exact avg_range _ (applicableScores_mem norm events)

/-! ## Claim theorems -/

/-- C1: for every run of `process_replay`, if decoding fails (the parser's
`parse()` step returns false), `process_replay` returns `None`, the analysis
step is never executed, and no analysis result is produced or saved for that
run. -/
theorem c1_decode_failure_yields_none (env : PEnv) (h : env.parseOk = false) :
    (process_replay env).1 = Outcome.retNone ∧
    Step.analyzeStep ∉ runSteps env ∧
    Step.saveAnalysis ∉ runSteps env ∧
    Step.compileResults ∉ runSteps env := by
  obtain ⟨fe, po, eo, ao, vo⟩ := env
  cases h
  cases fe <;> cases eo <;> cases ao <;> cases vo <;> decide

/-- Witness for C1 at a concrete environment: the file exists but the parse
step fails. -/
theorem c1_decode_failure_yields_none_witness :
    (PEnv.mk true false true true true).parseOk = false ∧
    ((process_replay (PEnv.mk true false true true true)).1 = Outcome.retNone ∧
     Step.analyzeStep ∉ runSteps (PEnv.mk true false true true true) ∧
     Step.saveAnalysis ∉ runSteps (PEnv.mk true false true true true) ∧
     Step.compileResults ∉ runSteps (PEnv.mk true false true true true)) :=
  ⟨rfl, c1_decode_failure_yields_none (PEnv.mk true false true true true) rfl⟩

/-- C2: in every run of `process_replay` the executed steps follow the fixed
stage order (decode, then analysis, then export/visualization), and a failed
step is always the last one executed — no later stage runs after a stage
fails. -/
theorem c2_stage_order_and_short_circuit (env : PEnv) :
    List.Chain' (· ≤ ·) ((process_replay env).2.map (fun sb => sb.1.stage)) ∧
    (process_replay env).2.dropLast.all (fun sb => sb.2) = true := by
  obtain ⟨fe, po, eo, ao, vo⟩ := env
  cases fe <;> cases po <;> cases eo <;> cases ao <;> cases vo <;>
    simp [process_replay, Step.stage, List.dropLast]

/-- C9: for every run whose replay path does not exist on disk,
`process_replay` returns `None` having executed only the existence check:
no result directory is created and no parsing, analysis or visualization
step is performed. -/
theorem c9_missing_path_no_side_effects (env : PEnv) (h : env.fileExists = false) :
    (process_replay env).1 = Outcome.retNone ∧
    runSteps env = [Step.checkExists] ∧
    Step.mkResultDir ∉ runSteps env ∧
    Step.parseStep ∉ runSteps env ∧
    Step.analyzeStep ∉ runSteps env ∧
    Step.visualizeStep ∉ runSteps env := by
  obtain ⟨fe, po, eo, ao, vo⟩ := env
  cases h
  cases po <;> cases eo <;> cases ao <;> cases vo <;> decide

/-- Witness for C9 at a concrete environment with a missing replay path. -/
theorem c9_missing_path_no_side_effects_witness :
    (PEnv.mk false true true true true).fileExists = false ∧
    ((process_replay (PEnv.mk false true true true true)).1 = Outcome.retNone ∧
     runSteps (PEnv.mk false true true true true) = [Step.checkExists] ∧
     Step.mkResultDir ∉ runSteps (PEnv.mk false true true true true) ∧
     Step.parseStep ∉ runSteps (PEnv.mk false true true true true) ∧
     Step.analyzeStep ∉ runSteps (PEnv.mk false true true true true) ∧
     Step.visualizeStep ∉ runSteps (PEnv.mk false true true true true)) :=
  ⟨rfl, c9_missing_path_no_side_effects (PEnv.mk false true true true true) rfl⟩

/-- C10: `get_result_summary` returns `None` exactly when the result
directory, `analysis_results.json` or `replay_data.json` is missing;
otherwise it returns the summary whose `id` is the requested `result_id`
and whose remaining fields are taken from the two files with
empty-container defaults for absent keys. -/
theorem c10_get_result_summary_spec (results_dir result_id : String)
    (st : ResultStore) :
    (get_result_summary results_dir result_id st = none ↔
      st.dirExists = false ∨ st.analysisJson = none ∨ st.replayJson = none) ∧
    (∀ a r, st.dirExists = true → st.analysisJson = some a →
      st.replayJson = some r →
      get_result_summary results_dir result_id st = some
        { id := result_id
          metadata := jget r "metadata" (.obj [])
          players := jget r "players" (.arr [])
          events := jget r "events" (.arr [])
          overall_score := jget a "overall_score" (.obj [])
          findings := jget a "findings" (.arr [])
          recommendations := jget a "recommendations" (.obj [])
          visualizations := visualizationPaths (pathJoin results_dir result_id) }) := by
  obtain ⟨de, aj, rj⟩ := st
  constructor
  · cases de <;> rcases aj with _ | a <;> rcases rj with _ | r <;>
      simp [get_result_summary]
  · rintro a r rfl rfl rfl
    simp [get_result_summary]

/-- Witness for C10 at a concrete store holding both files. -/
theorem c10_get_result_summary_spec_witness :
    (ResultStore.mk true (some [("overall_score", JVal.num 75)]) (some [])).dirExists = true ∧
    get_result_summary "data/results" "demo_replay"
        (ResultStore.mk true (some [("overall_score", JVal.num 75)]) (some [])) =
      some
        { id := "demo_replay"
          metadata := JVal.obj []
          players := JVal.arr []
          events := JVal.arr []
          overall_score := JVal.num 75
          findings := JVal.arr []
          recommendations := JVal.obj []
          visualizations := visualizationPaths (pathJoin "data/results" "demo_replay") } := by
  refine ⟨rfl, ?_⟩
  have h := (c10_get_result_summary_spec "data/results" "demo_replay"
      (ResultStore.mk true (some [("overall_score", JVal.num 75)]) (some []))).2
      [("overall_score", JVal.num 75)] [] rfl rfl rfl
  simpa [jget] using h

set_option maxRecDepth 40000 in
/-- C8 (counterexample): the wrapper-script contents written by
`create_wrapper_scripts` are not character-for-character identical to the
checked-in source files: already the `analisar_replay.py` pair differs
(the checked-in file carries a final blank line the generated text lacks),
and the `analisar_video.py` pair differs throughout. -/
theorem c8_wrapper_scripts_differ :
    ¬(analisarReplayGenerated = analisarReplayCheckedIn ∧
      analisarVideoGenerated = analisarVideoCheckedIn ∧
      iniciarInterfaceGenerated = iniciarInterfaceCheckedIn) := by
  intro h
  exact absurd h.1 (by decide)

set_option maxRecDepth 40000 in
/-- C8 (amended): re-running setup reproduces `analisar_replay.py` and
`iniciar_interface.py` up to one final newline — appending a trailing
newline to the generated text gives exactly the checked-in file — while the
checked-in `analisar_video.py` is a rewritten script different from the
generated one. -/
theorem c8_wrapper_scripts_amended :
    analisarReplayGenerated ++ "\n" = analisarReplayCheckedIn ∧
    iniciarInterfaceGenerated ++ "\n" = iniciarInterfaceCheckedIn ∧
    analisarVideoGenerated ≠ analisarVideoCheckedIn := by
  refine ⟨by decide, by decide, by decide⟩

/-- C3: the analysis is a deterministic function of the normalized series,
events and metadata: two runs in arbitrary ambient worlds (wall-clock time,
RNG seed) yield identical `AnalysisResult` values — the engine consults no
randomness and no time of day. -/
theorem c3_analysis_deterministic (w₁ w₂ : World) (norm : NormalizedReplay)
    (events : List GameEvent) (meta : ReplayMetadata) :
    analyzeInWorld w₁ norm events meta = analyzeInWorld w₂ norm events meta :=
  rfl

/-- C4: for every entity, the normalized time series produced by the
normalizer has strictly increasing timestamps — no two samples of one
entity's normalized series share a timestamp. -/
theorem c4_strictly_increasing_timestamps (dt : ℤ) (hdt : 0 < dt)
    (d : DecodedReplay) :
    (∀ p ∈ (normalizeReplay dt d).playersSeries,
      p.2.Pairwise (fun a b => a.t < b.t)) ∧
    (normalizeReplay dt d).ballSeries.Pairwise (fun a b => a.t < b.t) := by
  constructor
  · intro p hp
    simp only [normalizeReplay, List.mem_map] at hp
    obtain ⟨q, _, rfl⟩ := hp
    exact resampleSorted_pairwise dt hdt _
  · exact resampleSorted_pairwise dt hdt _

/-- Witness for C4: a concrete decoded replay with out-of-order duplicate-free
samples for one player and the ball, normalized at tick period 1. -/
theorem c4_strictly_increasing_timestamps_witness :
    (0 : ℤ) < 1 ∧
    ((∀ p ∈ (normalizeReplay 1
        (DecodedReplay.mk (ReplayMetadata.mk "m" "t" 3) [PlayerRecord.mk 1 "a" 0]
          [TaggedRecord.mk 1 (FrameSample.mk 2 4 0 0 1 0 0 30),
           TaggedRecord.mk 0 (FrameSample.mk 0 0 0 0 0 0 0 0),
           TaggedRecord.mk 1 (FrameSample.mk 0 0 0 0 1 0 0 50),
           TaggedRecord.mk 0 (FrameSample.mk 3 9 0 0 0 0 0 0)] 0 [] 0)).playersSeries,
      p.2.Pairwise (fun a b => a.t < b.t)) ∧
    (normalizeReplay 1
        (DecodedReplay.mk (ReplayMetadata.mk "m" "t" 3) [PlayerRecord.mk 1 "a" 0]
          [TaggedRecord.mk 1 (FrameSample.mk 2 4 0 0 1 0 0 30),
           TaggedRecord.mk 0 (FrameSample.mk 0 0 0 0 0 0 0 0),
           TaggedRecord.mk 1 (FrameSample.mk 0 0 0 0 1 0 0 50),
           TaggedRecord.mk 0 (FrameSample.mk 3 9 0 0 0 0 0 0)] 0 [] 0)).ballSeries.Pairwise
      (fun a b => a.t < b.t)) :=
  ⟨by decide, c4_strictly_increasing_timestamps 1 (by decide) _⟩

/-- C5: an entity with fewer than two raw samples normalizes to the empty
series rather than an error; the analysis engine scores that entity with the
"not applicable" sentinel in every category; and the overall score of any
analysis run is a well-defined integer in `[0, 100]` — no undefined value
propagates into it. -/
theorem c5_insufficient_data_not_applicable (dt : ℤ)
    (samples : List FrameSample) (events : List GameEvent) (pid : Nat)
    (h : samples.length < 2) :
    resample dt samples = [] ∧
    playerScores (resample dt samples) events pid =
      PlayerScores.mk none none none none ∧
    ∀ (norm : NormalizedReplay) (meta : ReplayMetadata),
      0 ≤ (analyze norm events meta).overall ∧
      (analyze norm events meta).overall ≤ 100 := by
  refine ⟨resample_short dt samples h, ?_, ?_⟩
  · rw [resample_short dt samples h]
    simp [playerScores, mkScore]
  · intro norm meta
    exact analyze_overall_range norm events meta

/-- Witness for C5: a single-sample entity, concretely evaluated. -/
theorem c5_insufficient_data_not_applicable_witness :
    ([FrameSample.mk 0 1 2 3 4 5 6 7].length < 2) ∧
    (resample 1 [FrameSample.mk 0 1 2 3 4 5 6 7] = [] ∧
     playerScores (resample 1 [FrameSample.mk 0 1 2 3 4 5 6 7]) [] 1 =
       PlayerScores.mk none none none none ∧
     ∀ (norm : NormalizedReplay) (meta : ReplayMetadata),
       0 ≤ (analyze norm [] meta).overall ∧ (analyze norm [] meta).overall ≤ 100) :=
  ⟨by decide, c5_insufficient_data_not_applicable 1 [FrameSample.mk 0 1 2 3 4 5 6 7] [] 1 (by decide)⟩

/-- C6: for a raw input with a supported version and a duplicate-free
roster, frame records with unknown entity tags are skipped, the
dropped-record counter equals exactly the number of skipped records, and
the decode still succeeds, keeping every record of the known entities —
unknown tags are never fatal. -/
theorem c6_unknown_tags_skipped_counted (raw : RawReplay)
    (h1 : supportedVersion raw.version = true)
    (h2 : (raw.players.map (·.pid)).Nodup) :
    decode raw = Except.ok
      { metadata := raw.metadata
        players := raw.players
        frames := raw.frames.filter (fun r => (knownTags raw).contains r.tag)
        droppedFrames := raw.frames.countP (fun r => !(knownTags raw).contains r.tag)
        events := raw.events.filter (fun e => (raw.players.map (·.pid)).contains e.actor)
        droppedEvents := raw.events.countP (fun e => !(raw.players.map (·.pid)).contains e.actor) } ∧
    raw.frames.countP (fun r => !(knownTags raw).contains r.tag) =
      (raw.frames.filter (fun r => !(knownTags raw).contains r.tag)).length := by
  constructor
  · simp [decode, h1, h2]
  · exact raw.frames.countP_eq_length_filter _

/-- Witness for C6: a concrete raw replay in which one of three frame
records carries the unknown entity tag 9; the decode succeeds, keeps the
two known records and counts exactly one dropped record. -/
theorem c6_unknown_tags_skipped_counted_witness :
    supportedVersion (RawReplay.mk 1 (ReplayMetadata.mk "m" "t" 60)
        [PlayerRecord.mk 1 "a" 0]
        [TaggedRecord.mk 1 (FrameSample.mk 0 0 0 0 0 0 0 0),
         TaggedRecord.mk 9 (FrameSample.mk 1 0 0 0 0 0 0 0),
         TaggedRecord.mk 0 (FrameSample.mk 2 0 0 0 0 0 0 0)] []).version = true ∧
    ([PlayerRecord.mk 1 "a" 0].map (·.pid)).Nodup ∧
    decode (RawReplay.mk 1 (ReplayMetadata.mk "m" "t" 60)
        [PlayerRecord.mk 1 "a" 0]
        [TaggedRecord.mk 1 (FrameSample.mk 0 0 0 0 0 0 0 0),
         TaggedRecord.mk 9 (FrameSample.mk 1 0 0 0 0 0 0 0),
         TaggedRecord.mk 0 (FrameSample.mk 2 0 0 0 0 0 0 0)] []) = Except.ok
      (DecodedReplay.mk (ReplayMetadata.mk "m" "t" 60) [PlayerRecord.mk 1 "a" 0]
        [TaggedRecord.mk 1 (FrameSample.mk 0 0 0 0 0 0 0 0),
         TaggedRecord.mk 0 (FrameSample.mk 2 0 0 0 0 0 0 0)] 1 [] 0) := by
  refine ⟨by decide, by decide, ?_⟩
  have h := (c6_unknown_tags_skipped_counted
      (RawReplay.mk 1 (ReplayMetadata.mk "m" "t" 60)
        [PlayerRecord.mk 1 "a" 0]
        [TaggedRecord.mk 1 (FrameSample.mk 0 0 0 0 0 0 0 0),
         TaggedRecord.mk 9 (FrameSample.mk 1 0 0 0 0 0 0 0),
         TaggedRecord.mk 0 (FrameSample.mk 2 0 0 0 0 0 0 0)] [])
      (by decide) (by decide)).1
  exact h.trans rfl

/-- Modelled from the spec: §8 scenario — a synthetic 2-player, 60-second
replay with full telemetry coverage for the ball (tag 0) and both players
(ids 1 and 2): one frame record per entity every 10 time units, and one
goal event at t = 30 whose actor is player 1. -/
def syntheticReplay : RawReplay :=
  { version := 1
    metadata := { mapName := "DFH Stadium", matchType := "1v1", duration := 60 }
    players := [PlayerRecord.mk 1 "Player1" 0, PlayerRecord.mk 2 "Player2" 1]
    frames := (List.range 7).flatMap (fun k =>
      let t : ℤ := 10 * (k : ℤ)
      [TaggedRecord.mk 0 (FrameSample.mk t 0 t 0 0 100 0 0),
       TaggedRecord.mk 1 (FrameSample.mk t t 0 0 100 0 0 50),
       TaggedRecord.mk 2 (FrameSample.mk t (-t) 0 0 (-100) 0 0 60)])
    events := [GameEvent.mk 30 "goal" 1 (some ballTag)] }

/-- C7: running the core pipeline on the synthetic 2-player, 60-second
replay with one goal at t = 30 succeeds; exactly one decoded event has type
"goal" and it is attributed to scoring player 1; the overall score lies in
`[0, 100]`; and both players' per-category scores are present and are not
the "not applicable" sentinel. -/
theorem c7_synthetic_scenario :
    ∃ d r, decode syntheticReplay = Except.ok d ∧
      corePipeline 10 syntheticReplay = Except.ok r ∧
      d.events.countP (fun e => e.etype == "goal") = 1 ∧
      d.events.countP (fun e => e.etype == "goal" && e.actor == 1) = 1 ∧
      0 ≤ r.overall ∧ r.overall ≤ 100 ∧
      r.perPlayer.length = 2 ∧
      ∀ p ∈ r.perPlayer, p.2.positioning.isSome ∧ p.2.resource.isSome ∧
        p.2.mechanical.isSome ∧ p.2.eventContribution.isSome := by
  refine ⟨_, _, rfl, rfl, by decide, by decide, by decide, by decide, by decide, ?_⟩
  decide

end GameSense
